import Mathlib

/-!
Verification of the AML case-processing engine (`backend/app/patterns.py` and
`backend/app/jobs.py`).

The embedding is shallow: a transaction is modelled by the values its field
accessors produce in the Python code.  `_get_date` returns a parsed calendar
date or `None`; we model the parse result as `Option ℤ` (a day index, so that
Python's `(d2 - d1).days` becomes integer subtraction).  `_get_amount` returns
a parsed float or `0.0` on failure; we model the parse result as `Option ℚ`
(`none` = unparseable raw value) and amounts as exact rationals.  `Type`,
`Details` and `direction` are kept as raw strings; the accessors lower-case
(and for `Type`, strip) them exactly as `_get_type` / `_get_details` do.
-/

/-- One transaction record, as seen through the accessors of `patterns.py`.
`date` is the result of `_get_date` (none = absent or unparseable);
`amount` is the result of the `float(...)` parse inside `_get_amount`
(none = the parse raised, which `_get_amount` maps to 0.0);
`typ`, `details`, `direction` are the raw string fields. -/
structure Tx where
  date : Option ℤ
  amount : Option ℚ
  typ : String
  details : String
  direction : String
deriving DecidableEq, Repr

/-- Character-list prefix test (executable helper for substring search). -/
def startsWithChars : List Char → List Char → Bool
  | [], _ => true
  | _ :: _, [] => false
  | a :: as, b :: bs => a == b && startsWithChars as bs

/-- Character-list substring test: does `pat` occur inside `hay`? -/
def containsChars (pat : List Char) : List Char → Bool
  | [] => startsWithChars pat []
  | c :: rest => startsWithChars pat (c :: rest) || containsChars pat rest

/-- Python's `pat in hay` on strings. -/
def strContain (hay pat : String) : Bool :=
  containsChars pat.data hay.data

/-- Python's `str.lower()`. -/
def lowerStr (s : String) : String :=
  String.mk (s.data.map Char.toLower)

/-- Python's `str.strip()`. -/
def trimStr (s : String) : String :=
  String.mk (((s.data.dropWhile Char.isWhitespace).reverse.dropWhile Char.isWhitespace).reverse)

/-- `_get_amount` (patterns.py line 52): the parsed amount, or 0.0 when the
parse failed. -/
def getAmount (t : Tx) : ℚ := t.amount.getD 0

/-- Kernel-computable rational addition.  The library's `Rat.add` is marked
irreducible, so detector definitions use this equal copy to stay evaluable
inside `decide` proofs. -/
def ratAdd (a b : ℚ) : ℚ :=
  Rat.normalize (a.num * b.den + b.num * a.den) (a.den * b.den)
    (Nat.mul_ne_zero a.den_nz b.den_nz)

theorem ratAdd_eq (a b : ℚ) : ratAdd a b = a + b := by
  unfold ratAdd; exact (Rat.add_def a b).symm

/-- Kernel-computable rational multiplication (same reason as `ratAdd`). -/
def ratMul (a b : ℚ) : ℚ :=
  Rat.normalize (a.num * b.num) (a.den * b.den)
    (Nat.mul_ne_zero a.den_nz b.den_nz)

theorem ratMul_eq (a b : ℚ) : ratMul a b = a * b := by
  unfold ratMul; exact (Rat.mul_def a b).symm

/-- Python's `sum(...)` over a list of rationals, via `ratAdd`. -/
def ratSum : List ℚ → ℚ
  | [] => 0
  | a :: l => ratAdd a (ratSum l)

theorem ratSum_eq : ∀ l : List ℚ, ratSum l = l.sum
  | [] => rfl
  | a :: l => by rw [ratSum, ratAdd_eq, ratSum_eq l, List.sum_cons]

/-- Kernel-computable binary maximum on rationals. -/
def ratMax (a b : ℚ) : ℚ := if a ≤ b then b else a

theorem ratMax_eq (a b : ℚ) : ratMax a b = max a b := by
  rw [ratMax, max_def]

/-- The constant `0.80` of the outflow and consolidation tests
(patterns.py lines 374 and 539), as an exact rational. -/
def ratFourFifths : ℚ := Rat.mk' 4 5 (by decide) (by decide)

theorem ratFourFifths_eq : ratFourFifths = 4 / 5 := by
  rw [ratFourFifths, Rat.mk'_eq_divInt, Rat.divInt_eq_div]; norm_num

/-- `_get_type` (patterns.py line 77): raw `Type` field, stripped and
lower-cased. -/
def getType (t : Tx) : String := lowerStr (trimStr t.typ)

/-- `_get_details` (patterns.py line 81): raw `Details` field, lower-cased. -/
def getDetails (t : Tx) : String := lowerStr t.details

/-- `HIGH_RISK_KEYWORDS` (patterns.py line 22). -/
def HIGH_RISK_KEYWORDS : List String :=
  ["highriskcountry", "sanctionedcountry", "xyz", "countryx", "hong kong",
   "uae", "dubai", "china", "offshore", "foreign wire"]

/-- `infer_direction_from_details` (patterns.py line 35). -/
def inferDirectionFromDetails (details : String) : String :=
  let d := lowerStr details
  if ["incoming", "from ", "credit", "deposit", "salary", "payroll"].any (fun k => strContain d k) then
    "inbound"
  else if ["transfer to", "wire to", "withdrawal", "payment", "sent", "debit"].any (fun k => strContain d k) then
    "outbound"
  else
    "unknown"

/-- The `by_day` grouping (patterns.py line 113): the transactions whose
parsed date is `d`, in input order. -/
def txsOnDay (txs : List Tx) (d : ℤ) : List Tx :=
  txs.filter (fun t => t.date == some d)

/-- The distinct keys of the `by_day` dictionary. -/
def dayKeys (txs : List Tx) : List ℤ :=
  (txs.filterMap (fun t => t.date)).dedup

/-- The `dated` / `dated_txs` lists (patterns.py lines 263, 347, 490):
transactions paired with their parsed date, skipping unparseable dates. -/
def datedTxs (txs : List Tx) : List (Tx × ℤ) :=
  txs.filterMap (fun t => t.date.map (fun d => (t, d)))

/-- Pattern 1 per-transaction test (patterns.py line 122): cash and
`9900 < amount < STRUCTURING_THRESHOLD` (= 10000.0). -/
def structuringHit (t : Tx) : Bool :=
  getType t == "cash" && decide ((9900 : ℚ) < getAmount t) && decide (getAmount t < 10000)

/-- Pattern 1, STRUCTURING_NEAR_THRESHOLD_CASH (patterns.py lines 119-132). -/
def structuringFires (txs : List Tx) : Bool :=
  txs.any structuringHit

/-- Pattern 2 per-day test (patterns.py lines 136-144): the day has a cash
transaction and a wire transaction over 5000. -/
def cashWireDay (txs : List Tx) (d : ℤ) : Bool :=
  ((txsOnDay txs d).any (fun t => getType t == "cash")) &&
  ((txsOnDay txs d).any (fun t => getType t == "wire" && decide ((5000 : ℚ) < getAmount t)))

/-- Pattern 2, RAPID_CASH_TO_WIRE (patterns.py lines 134-153). -/
def cashWireFires (txs : List Tx) : Bool :=
  (dayKeys txs).any (cashWireDay txs)

/-- Inbound-smurfing eligibility (patterns.py lines 162-181): electronic
channel, details containing "incoming"/"credit"/"from", amount below
`INBOUND_SMURF_MAX_SINGLE` (= 1000). -/
def smurfEligible (t : Tx) : Bool :=
  (["p2p", "ach", "wire"].contains (getType t)) &&
  (strContain (getDetails t) "incoming" || strContain (getDetails t) "credit" ||
    strContain (getDetails t) "from") &&
  decide (getAmount t < 1000)

/-- Inbound-smurfing per-day test (patterns.py lines 158-202): at least 4
eligible transactions, at least 3 distinct details strings among them, total
at least 1500. -/
def smurfDay (txs : List Tx) (d : ℤ) : Bool :=
  let el := (txsOnDay txs d).filter smurfEligible
  decide (4 ≤ el.length) &&
  decide (3 ≤ ((el.map getDetails).dedup).length) &&
  decide ((1500 : ℚ) ≤ ratSum (el.map getAmount))

/-- INBOUND_SMURFING (patterns.py lines 155-212). -/
def inboundSmurfFires (txs : List Tx) : Bool :=
  (dayKeys txs).any (smurfDay txs)

/-- Pattern 3 per-day test (patterns.py lines 216-236): at least 2 p2p
transactions, or exactly one whose details mention "multiple" and
"transfer". -/
def p2pDay (txs : List Tx) (d : ℤ) : Bool :=
  let p := (txsOnDay txs d).filter (fun t => getType t == "p2p")
  let hasAggregatedRow := p.any (fun t =>
    strContain (getDetails t) "multiple" && strContain (getDetails t) "transfer")
  !p.isEmpty && (decide (2 ≤ p.length) || (p.length == 1 && hasAggregatedRow))

/-- P2P_MULTIPLE_TRANSFERS_SAME_DAY (patterns.py lines 214-245). -/
def p2pFires (txs : List Tx) : Bool :=
  (dayKeys txs).any (p2pDay txs)

/-- `CRYPTO_KEYWORDS` of pattern 5 (patterns.py line 250). -/
def CRYPTO_KEYWORDS : List String :=
  ["cryptoexchange", "crypto exchange", "crypto", "coinbase", "kraken",
   "binance", "kucoin", "okx", "crypto.com"]

/-- Crypto-deposit test (patterns.py line 269): details mention a crypto
keyword. -/
def isCryptoDeposit (t : Tx) : Bool :=
  CRYPTO_KEYWORDS.any (fun k => strContain (getDetails t) k)

/-- Outflow search of pattern 5 (patterns.py lines 276-284): a dated
wire/p2p/ach transaction of at least `CRYPTO_MIN_OUTFLOW` (= 5000) within
2 days of the deposit date. -/
def cryptoOutflowNear (txs : List Tx) (d0 : ℤ) : Bool :=
  (datedTxs txs).any (fun p =>
    decide ((p.2 - d0).natAbs ≤ 2) &&
    (["wire", "p2p", "ach"].contains (getType p.1)) &&
    decide ((5000 : ℚ) ≤ getAmount p.1))

/-- CRYPTO_TO_BANK_FLOW (patterns.py lines 247-300). -/
def cryptoFires (txs : List Tx) : Bool :=
  (datedTxs txs).any (fun p => isCryptoDeposit p.1 && cryptoOutflowNear txs p.2)

/-- Pattern 6 per-transaction test (patterns.py lines 304-308): a wire whose
details mention a high-risk keyword. -/
def highRiskHit (t : Tx) : Bool :=
  getType t == "wire" && HIGH_RISK_KEYWORDS.any (fun k => strContain (getDetails t) k)

/-- HIGH_RISK_JURISDICTION_WIRE (patterns.py lines 302-318). -/
def highRiskFires (txs : List Tx) : Bool :=
  txs.any highRiskHit

/-- Pattern 7 per-transaction test (patterns.py lines 321-328): atm channel
or "atm withdrawal" in the details, amount in [8000, 10000). -/
def atmStructHit (t : Tx) : Bool :=
  (getType t == "atm" || strContain (getDetails t) "atm withdrawal") &&
  decide ((8000 : ℚ) ≤ getAmount t) && decide (getAmount t < 10000)

/-- ATM_STRUCTURING_WITHDRAWALS (patterns.py lines 320-337): at least
`ATM_STRUCT_MIN_COUNT` (= 3) qualifying withdrawals. -/
def atmFires (txs : List Tx) : Bool :=
  decide (3 ≤ (txs.filter atmStructHit).length)

/-- Pattern 8 pair test (patterns.py lines 349-381): inbound channel
(cash/ach/check) at least 5000, outbound channel (wire/ach/p2p) at least
5000, dates within one day, outbound at least 80% of inbound. -/
def rapidOutflowPair (pin pout : Tx × ℤ) : Bool :=
  (["cash", "ach", "check"].contains (getType pin.1)) &&
  decide ((5000 : ℚ) ≤ getAmount pin.1) &&
  (["wire", "ach", "p2p"].contains (getType pout.1)) &&
  decide ((5000 : ℚ) ≤ getAmount pout.1) &&
  decide ((pout.2 - pin.2).natAbs ≤ 1) &&
  decide (ratMul (getAmount pin.1) ratFourFifths ≤ getAmount pout.1)

/-- RAPID_OUTFLOW (patterns.py lines 339-390): both loops run over the same
`dated` list, so a transaction may pair with itself. -/
def rapidOutflowFires (txs : List Tx) : Bool :=
  (datedTxs txs).any (fun a => (datedTxs txs).any (fun b => rapidOutflowPair a b))

/-- `SALARY_KEYWORDS` of pattern 9 (patterns.py line 395). -/
def SALARY_KEYWORDS : List String := ["salary", "payroll"]

/-- The second `CRYPTO_KEYWORDS` binding, used by pattern 9
(patterns.py line 396). -/
def LAYER_CRYPTO_KEYWORDS : List String :=
  ["crypto", "exchange", "binance", "coinbase", "kraken"]

/-- Layering anchor filter (patterns.py line 420): skip salary-sized anchors
(amount at most `SALARY_MAX` = 5000 with a salary keyword). -/
def layeringAnchorOk (t : Tx) : Bool :=
  !(decide (getAmount t ≤ 5000) && SALARY_KEYWORDS.any (fun k => strContain (getDetails t) k))

/-- Layering window (patterns.py lines 423-429): dated transactions within
`WINDOW_DAYS` (= 7) forward of the anchor date. -/
def layeringWindow (txs : List Tx) (d0 : ℤ) : List (Tx × ℤ) :=
  (datedTxs txs).filter (fun p => decide (d0 ≤ p.2) && decide (p.2 ≤ d0 + 7))

/-- Per-transaction movement contribution inside a layering window
(patterns.py lines 438-451): crypto-keyword details always count, otherwise
only inferred-outbound transactions count. -/
def layeringContribution (t : Tx) : ℚ :=
  if LAYER_CRYPTO_KEYWORDS.any (fun k => strContain (getDetails t) k) then getAmount t
  else if inferDirectionFromDetails (getDetails t) == "outbound" then getAmount t
  else 0

/-- Layering per-anchor test (patterns.py lines 423-457): window of at least
4 transactions, at least `MIN_CHANNELS` (= 3) distinct channels, movement of
at least `MIN_LARGE_TX` (= 6000). -/
def layeringAnchorFires (txs : List Tx) (d0 : ℤ) : Bool :=
  let w := layeringWindow txs d0
  decide (4 ≤ w.length) &&
  decide (3 ≤ ((w.map (fun p => getType p.1)).dedup).length) &&
  decide ((6000 : ℚ) ≤ ratSum (w.map (fun p => layeringContribution p.1)))

/-- LAYERING_ACTIVITY (patterns.py lines 392-478). -/
def layeringFires (txs : List Tx) : Bool :=
  (datedTxs txs).any (fun p => layeringAnchorOk p.1 && layeringAnchorFires txs p.2)

/-- Funneling inbound test (patterns.py lines 511-515): electronic channel
with details mentioning "incoming"/"from"/"credit". -/
def funnelInbound (t : Tx) : Bool :=
  (["p2p", "ach", "wire"].contains (getType t)) &&
  (strContain (getDetails t) "incoming" || strContain (getDetails t) "from" ||
    strContain (getDetails t) "credit")

/-- Funneling outbound test (patterns.py line 518): wire/p2p with positive
amount. -/
def funnelOutbound (t : Tx) : Bool :=
  (["wire", "p2p"].contains (getType t)) && decide ((0 : ℚ) < getAmount t)

/-- Total amount sent to one details-keyed destination
(patterns.py line 520, the `outbound_destinations` accumulator). -/
def destTotal (outs : List Tx) (dest : String) : ℚ :=
  ratSum ((outs.filter (fun t => getDetails t == dest)).map getAmount)

/-- `max(outbound_destinations.values())` (patterns.py line 538).  The fold
starts at 0, which is below every genuine destination total because
`funnelOutbound` requires a positive amount. -/
def maxDestTotal (outs : List Tx) : ℚ :=
  (((outs.map getDetails).dedup).map (destTotal outs)).foldl ratMax 0

/-- Funneling per-anchor test (patterns.py lines 493-539): at least
`MIN_INBOUND_TX` (= 4) inbound credits totalling at least
`MIN_TOTAL_INBOUND` (= 10000) from at least 4 distinct details strings, a
nonempty outbound list, and one destination holding at least 80% of the
inbound total. -/
def funnelAnchorFires (txs : List Tx) (d0 : ℤ) : Bool :=
  let w := ((datedTxs txs).filter (fun p => decide (d0 ≤ p.2) && decide (p.2 ≤ d0 + 7))).map Prod.fst
  let inb := w.filter funnelInbound
  let outs := w.filter funnelOutbound
  decide (4 ≤ inb.length) &&
  decide ((10000 : ℚ) ≤ ratSum (inb.map getAmount)) &&
  decide (4 ≤ ((inb.map getDetails).dedup).length) &&
  !outs.isEmpty &&
  decide (ratMul (ratSum (inb.map getAmount)) ratFourFifths ≤ maxDestTotal outs)

/-- FUNNELING_ACTIVITY (patterns.py lines 481-560). -/
def funnelingFires (txs : List Tx) : Bool :=
  (datedTxs txs).any (fun p => funnelAnchorFires txs p.2)

/-- The detector bank of `run_patterns`, in source append order, each with
its pattern code and fixed score contribution. -/
def detectors : List (String × (List Tx → Bool) × ℤ) :=
  [("STRUCTURING_NEAR_THRESHOLD_CASH", structuringFires, 3),
   ("RAPID_CASH_TO_WIRE", cashWireFires, 4),
   ("INBOUND_SMURFING", inboundSmurfFires, 4),
   ("P2P_MULTIPLE_TRANSFERS_SAME_DAY", p2pFires, 3),
   ("CRYPTO_TO_BANK_FLOW", cryptoFires, 7),
   ("HIGH_RISK_JURISDICTION_WIRE", highRiskFires, 7),
   ("ATM_STRUCTURING_WITHDRAWALS", atmFires, 3),
   ("RAPID_OUTFLOW", rapidOutflowFires, 4),
   ("LAYERING_ACTIVITY", layeringFires, 6),
   ("FUNNELING_ACTIVITY", funnelingFires, 5)]

/-- The detectors that fire on a collection, in append order. -/
def firedDetectors (txs : List Tx) : List (String × (List Tx → Bool) × ℤ) :=
  detectors.filter (fun e => e.2.1 txs)

/-- The pattern codes of `run_patterns`' result list (each fired detector
appends exactly one pattern record; the evidentiary `matches` payloads are
irrelevant to the properties below and elided). -/
def firedCodes (txs : List Tx) : List String :=
  (firedDetectors txs).map (fun e => e.1)

/-- The pre-clamp risk score: the sum of fired contributions
(patterns.py accumulates it across the detector blocks). -/
def rawScore (txs : List Tx) : ℤ :=
  ((firedDetectors txs).map (fun e => e.2.2)).sum

/-- The final clamp of `run_patterns` (patterns.py lines 562-565). -/
def clampScore (s : ℤ) : ℤ :=
  if s ≤ 0 then 1 else if 10 < s then 10 else s

/-- `run_patterns` (patterns.py line 85): the fired pattern codes and the
clamped risk score. -/
def run_patterns (txs : List Tx) : List String × ℤ :=
  (firedCodes txs, clampScore (rawScore txs))

/-- `HIGH_RISK_PATTERNS` (jobs.py line 19). -/
def HIGH_RISK_PATTERNS : List String :=
  ["STRUCTURING_NEAR_THRESHOLD_CASH",
   "ATM_STRUCTURING_WITHDRAWALS",
   "INBOUND_SMURFING",
   "SMURFING_P2P_INBOUND",
   "P2P_MULTIPLE_TRANSFERS_SAME_DAY",
   "CRYPTO_TO_BANK_FLOW",
   "RAPID_OUTFLOW",
   "RAPID_CASH_TO_WIRE",
   "HIGH_RISK_JURISDICTION_WIRE"]

/-- `SAR_DRIVER_PRIORITY` (jobs.py line 31). -/
def SAR_DRIVER_PRIORITY : List String :=
  ["FUNNELING_ACTIVITY",
   "LAYERING_ACTIVITY",
   "INBOUND_SMURFING",
   "CRYPTO_TO_BANK_FLOW",
   "RAPID_OUTFLOW",
   "RAPID_CASH_TO_WIRE",
   "STRUCTURING_NEAR_THRESHOLD_CASH",
   "ATM_STRUCTURING_WITHDRAWALS",
   "P2P_MULTIPLE_TRANSFERS_SAME_DAY"]

/-- `compute_main_sar_driver` (jobs.py line 87): the first priority-list code
present among the fired codes. -/
def compute_main_sar_driver (codes : List String) : Option String :=
  SAR_DRIVER_PRIORITY.find? (fun c => codes.contains c)

/-- `should_recommend_no_sar` (jobs.py line 96). -/
def should_recommend_no_sar (codes : List String) (riskScore : ℤ) : Bool :=
  if codes.any (fun c => HIGH_RISK_PATTERNS.contains c) then false
  else if 2 < riskScore then false
  else true

/-- `compute_risk_band` (jobs.py line 109). -/
def compute_risk_band (score : ℤ) : String :=
  if score ≤ 2 then "Low" else if score ≤ 6 then "Medium" else "High"

/-- `compute_final_recommendation` (jobs.py line 118). -/
def compute_final_recommendation (codes : List String) (riskScore : ℤ) : String :=
  if should_recommend_no_sar codes riskScore then "No SAR"
  else if 7 ≤ riskScore then "SAR"
  else "Review"

/-- Direction of a transaction as the spec's data model defines it
("inbound | outbound | unknown — may be explicit or inferred from
`details`"): the explicit `direction` field when it names a direction,
otherwise the keyword inference of `infer_direction_from_details`.  Used
only to state what the spec claims; the detectors above never read it. -/
def specDirection (t : Tx) : String :=
  if t.direction == "inbound" || t.direction == "outbound" then t.direction
  else inferDirectionFromDetails (getDetails t)

/-- The RAPID_OUTFLOW trigger as the spec words it: an *inbound-direction*
transaction of channel cash/ach/check at least 5000 paired with an
*outbound-direction* transaction of channel wire/ach/p2p at least 5000,
parseable dates within one day, outbound at least 80% of inbound.  Stated
for comparison with `rapidOutflowFires`, which checks channels only. -/
def rapidOutflowSpecFires (txs : List Tx) : Bool :=
  txs.any (fun ta => txs.any (fun tb =>
    specDirection ta == "inbound" &&
    (["cash", "ach", "check"].contains (getType ta)) &&
    decide ((5000 : ℚ) ≤ getAmount ta) &&
    specDirection tb == "outbound" &&
    (["wire", "ach", "p2p"].contains (getType tb)) &&
    decide ((5000 : ℚ) ≤ getAmount tb) &&
    (match ta.date, tb.date with
     | some da, some db => decide ((db - da).natAbs ≤ 1)
     | _, _ => false) &&
    decide (ratMul (getAmount ta) ratFourFifths ≤ getAmount tb)))

/-- Inbound-smurfing eligibility as the spec words it: channel p2p/ach/wire,
*direction inbound*, amount under 1000.  Stated for comparison with
`smurfEligible`, which tests details substrings instead of direction. -/
def smurfSpecEligible (t : Tx) : Bool :=
  (["p2p", "ach", "wire"].contains (getType t)) &&
  specDirection t == "inbound" &&
  decide (getAmount t < 1000)

/-- Per-day inbound-smurfing test with the spec's eligibility reading. -/
def smurfSpecDay (txs : List Tx) (d : ℤ) : Bool :=
  let el := (txsOnDay txs d).filter smurfSpecEligible
  decide (4 ≤ el.length) &&
  decide (3 ≤ ((el.map getDetails).dedup).length) &&
  decide ((1500 : ℚ) ≤ ratSum (el.map getAmount))

/-- INBOUND_SMURFING as the spec words it. -/
def inboundSmurfSpecFires (txs : List Tx) : Bool :=
  (dayKeys txs).any (smurfSpecDay txs)

/-- Single-transaction collection firing only HIGH_RISK_JURISDICTION_WIRE: a
wire whose details name a high-risk jurisdiction, with no parseable date. -/
def highRiskOnlyEx : List Tx := [⟨none, some 100, "wire", "uae", "unknown"⟩]

/-- Single-transaction collection firing only CRYPTO_TO_BANK_FLOW: a dated
5000 wire whose details name a crypto exchange (it is its own qualifying
outflow). -/
def cryptoOnlyEx : List Tx := [⟨some 0, some 5000, "wire", "coinbase", "unknown"⟩]

/-- A single dated ACH transaction of 5000 with empty details, hence of
unknown direction. -/
def achAloneEx : List Tx := [⟨some 0, some 5000, "ach", "", "unknown"⟩]

/-- Four same-day p2p credits of 400 with distinct neutral details and an
explicit inbound direction field. -/
def fourCreditsEx : List Tx :=
  [⟨some 0, some 400, "p2p", "alpha", "inbound"⟩,
   ⟨some 0, some 400, "p2p", "beta", "inbound"⟩,
   ⟨some 0, some 400, "p2p", "gamma", "inbound"⟩,
   ⟨some 0, some 400, "p2p", "delta", "inbound"⟩]

/-- Three ATM withdrawals of 8500, 9000 and 9500 on three different days. -/
def threeAtmEx : List Tx :=
  [⟨some 0, some 8500, "atm", "atm withdrawal", "unknown"⟩,
   ⟨some 1, some 9000, "atm", "atm withdrawal", "unknown"⟩,
   ⟨some 2, some 9500, "atm", "atm withdrawal", "unknown"⟩]

/-- A single dated ACH transaction of 6000 with empty details. -/
def achSelfPairEx : List Tx := [⟨some 0, some 6000, "ach", "", "unknown"⟩]

theorem mem_datedTxs {txs : List Tx} {t : Tx} {d : ℤ} :
    (t, d) ∈ datedTxs txs ↔ t ∈ txs ∧ t.date = some d := by
  simp only [datedTxs, List.mem_filterMap, Option.map_eq_some', Prod.mk.injEq]
  constructor
  · rintro ⟨u, hu, du, hdu, rfl, rfl⟩
    exact ⟨hu, hdu⟩
  · rintro ⟨ht, hd⟩
    exact ⟨t, ht, d, hd, rfl, rfl⟩

theorem mem_dayKeys {txs : List Tx} {d : ℤ} :
    d ∈ dayKeys txs ↔ ∃ t ∈ txs, t.date = some d := by
  simp [dayKeys, List.mem_dedup, List.mem_filterMap]

theorem mem_txsOnDay {txs : List Tx} {t : Tx} {d : ℤ} :
    t ∈ txsOnDay txs d ↔ t ∈ txs ∧ t.date = some d := by
  simp [txsOnDay, List.mem_filter]

theorem contains_mem {l : List String} {c : String} : l.contains c = true ↔ c ∈ l :=
  List.elem_iff

theorem mem_firedCodes {txs : List Tx} {c : String} :
    c ∈ firedCodes txs ↔ ∃ e ∈ detectors, e.2.1 txs = true ∧ e.1 = c := by
  simp only [firedCodes, firedDetectors, List.mem_map, List.mem_filter]
  constructor
  · rintro ⟨e, ⟨he, hf⟩, hc⟩
    exact ⟨e, he, hf, hc⟩
  · rintro ⟨e, he, hf, hc⟩
    exact ⟨e, ⟨he, hf⟩, hc⟩
theorem structuring_fired_iff (txs : List Tx) :
    ("STRUCTURING_NEAR_THRESHOLD_CASH" ∈ firedCodes txs) ↔ structuringFires txs = true := by
  rw [mem_firedCodes]
  constructor
  · rintro ⟨e, he, hf, hc⟩
    fin_cases he <;> simp_all
  · intro h
    exact ⟨("STRUCTURING_NEAR_THRESHOLD_CASH", structuringFires, 3), by simp [detectors], h, rfl⟩

theorem cashWire_fired_iff (txs : List Tx) :
    ("RAPID_CASH_TO_WIRE" ∈ firedCodes txs) ↔ cashWireFires txs = true := by
  rw [mem_firedCodes]
  constructor
  · rintro ⟨e, he, hf, hc⟩
    fin_cases he <;> simp_all
  · intro h
    exact ⟨("RAPID_CASH_TO_WIRE", cashWireFires, 4), by simp [detectors], h, rfl⟩

theorem smurf_fired_iff (txs : List Tx) :
    ("INBOUND_SMURFING" ∈ firedCodes txs) ↔ inboundSmurfFires txs = true := by
  rw [mem_firedCodes]
  constructor
  · rintro ⟨e, he, hf, hc⟩
    fin_cases he <;> simp_all
  · intro h
    exact ⟨("INBOUND_SMURFING", inboundSmurfFires, 4), by simp [detectors], h, rfl⟩

theorem p2p_fired_iff (txs : List Tx) :
    ("P2P_MULTIPLE_TRANSFERS_SAME_DAY" ∈ firedCodes txs) ↔ p2pFires txs = true := by
  rw [mem_firedCodes]
  constructor
  · rintro ⟨e, he, hf, hc⟩
    fin_cases he <;> simp_all
  · intro h
    exact ⟨("P2P_MULTIPLE_TRANSFERS_SAME_DAY", p2pFires, 3), by simp [detectors], h, rfl⟩

theorem crypto_fired_iff (txs : List Tx) :
    ("CRYPTO_TO_BANK_FLOW" ∈ firedCodes txs) ↔ cryptoFires txs = true := by
  rw [mem_firedCodes]
  constructor
  · rintro ⟨e, he, hf, hc⟩
    fin_cases he <;> simp_all
  · intro h
    exact ⟨("CRYPTO_TO_BANK_FLOW", cryptoFires, 7), by simp [detectors], h, rfl⟩

theorem highRisk_fired_iff (txs : List Tx) :
    ("HIGH_RISK_JURISDICTION_WIRE" ∈ firedCodes txs) ↔ highRiskFires txs = true := by
  rw [mem_firedCodes]
  constructor
  · rintro ⟨e, he, hf, hc⟩
    fin_cases he <;> simp_all
  · intro h
    exact ⟨("HIGH_RISK_JURISDICTION_WIRE", highRiskFires, 7), by simp [detectors], h, rfl⟩

theorem atm_fired_iff (txs : List Tx) :
    ("ATM_STRUCTURING_WITHDRAWALS" ∈ firedCodes txs) ↔ atmFires txs = true := by
  rw [mem_firedCodes]
  constructor
  · rintro ⟨e, he, hf, hc⟩
    fin_cases he <;> simp_all
  · intro h
    exact ⟨("ATM_STRUCTURING_WITHDRAWALS", atmFires, 3), by simp [detectors], h, rfl⟩

theorem rapidOutflow_fired_iff (txs : List Tx) :
    ("RAPID_OUTFLOW" ∈ firedCodes txs) ↔ rapidOutflowFires txs = true := by
  rw [mem_firedCodes]
  constructor
  · rintro ⟨e, he, hf, hc⟩
    fin_cases he <;> simp_all
  · intro h
    exact ⟨("RAPID_OUTFLOW", rapidOutflowFires, 4), by simp [detectors], h, rfl⟩

theorem layering_fired_iff (txs : List Tx) :
    ("LAYERING_ACTIVITY" ∈ firedCodes txs) ↔ layeringFires txs = true := by
  rw [mem_firedCodes]
  constructor
  · rintro ⟨e, he, hf, hc⟩
    fin_cases he <;> simp_all
  · intro h
    exact ⟨("LAYERING_ACTIVITY", layeringFires, 6), by simp [detectors], h, rfl⟩

theorem funneling_fired_iff (txs : List Tx) :
    ("FUNNELING_ACTIVITY" ∈ firedCodes txs) ↔ funnelingFires txs = true := by
  rw [mem_firedCodes]
  constructor
  · rintro ⟨e, he, hf, hc⟩
    fin_cases he <;> simp_all
  · intro h
    exact ⟨("FUNNELING_ACTIVITY", funnelingFires, 5), by simp [detectors], h, rfl⟩

theorem detectors_contribution_ge : ∀ e ∈ detectors, (3 : ℤ) ≤ e.2.2 := by
  intro e he
  fin_cases he <;> norm_num

theorem sum_ge_three {l : List ℤ} (hne : l ≠ []) (h : ∀ x ∈ l, 3 ≤ x) : 3 ≤ l.sum := by
  cases l with
  | nil => exact absurd rfl hne
  | cons a t =>
    have ha := h a (List.mem_cons_self a t)
    have ht : 0 ≤ t.sum :=
      List.sum_nonneg (fun x hx => by have := h x (List.mem_cons_of_mem a hx); omega)
    rw [List.sum_cons]; omega

theorem rawScore_ge {txs : List Tx} (h : firedCodes txs ≠ []) : 3 ≤ rawScore txs := by
  apply sum_ge_three
  · intro hn
    apply h
    unfold firedCodes
    rw [show firedDetectors txs = [] from List.map_eq_nil_iff.mp hn]
    rfl
  · intro x hx
    rcases List.mem_map.mp hx with ⟨e, he, rfl⟩
    exact detectors_contribution_ge e (List.mem_of_mem_filter he)

theorem clampScore_bounds (s : ℤ) : 1 ≤ clampScore s ∧ clampScore s ≤ 10 := by
  unfold clampScore
  split
  · omega
  · split <;> omega

theorem clampScore_ge_three {s : ℤ} (h3 : 3 ≤ s) : 3 ≤ clampScore s := by
  unfold clampScore
  split
  · omega
  · split <;> omega

theorem find?_first {p : String → Bool} :
    ∀ {l : List String} {a : String}, l.find? p = some a →
      p a = true ∧ a ∈ l ∧
        ∀ b ∈ l, p b = true → List.indexOf a l ≤ List.indexOf b l := by
  intro l
  induction l with
  | nil => intro a h; simp at h
  | cons x xs ih =>
    intro a h
    rw [List.find?_cons] at h
    cases hx : p x with
    | true =>
      rw [hx] at h
      cases h
      exact ⟨hx, List.mem_cons_self x xs, fun b _ _ => by
        rw [List.indexOf_cons_self]; exact Nat.zero_le _⟩
    | false =>
      rw [hx] at h
      obtain ⟨hpa, hmem, hmin⟩ := ih h
      have hax : x ≠ a := fun hxa => by rw [hxa, hpa] at hx; cases hx
      refine ⟨hpa, List.mem_cons_of_mem x hmem, ?_⟩
      intro b hb hpb
      rcases List.mem_cons.mp hb with rfl | hbx
      · rw [hpb] at hx; cases hx
      · have hbx' : x ≠ b := fun hxb => by rw [hxb, hpb] at hx; cases hx
        rw [List.indexOf_cons_ne xs hax, List.indexOf_cons_ne xs hbx']
        exact Nat.succ_le_succ (hmin b hbx hpb)

theorem no_sar_iff (codes : List String) (score : ℤ) :
    should_recommend_no_sar codes score = true ↔
      ((∀ c ∈ codes, c ∉ HIGH_RISK_PATTERNS) ∧ score ≤ 2) := by
  unfold should_recommend_no_sar
  by_cases hA : codes.any (fun c => HIGH_RISK_PATTERNS.contains c) = true
  · rw [if_pos hA]
    rcases List.any_eq_true.mp hA with ⟨c, hc, hcH⟩
    constructor
    · intro h; cases h
    · rintro ⟨hnone, -⟩
      exact absurd (contains_mem.mp hcH) (hnone c hc)
  · rw [if_neg hA]
    have hnone : ∀ c ∈ codes, c ∉ HIGH_RISK_PATTERNS := by
      intro c hc hcH
      exact hA (List.any_eq_true.mpr ⟨c, hc, contains_mem.mpr hcH⟩)
    by_cases hS : 2 < score
    · rw [if_pos hS]
      constructor
      · intro h; cases h
      · rintro ⟨-, h2⟩; omega
    · rw [if_neg hS]
      exact ⟨fun _ => ⟨hnone, by omega⟩, fun _ => rfl⟩

/-- C1 counterexample: a collection firing only HIGH_RISK_JURISDICTION_WIRE
has a non-empty patterns sequence yet a null main driver, because the
severity list scanned by `compute_main_sar_driver` omits that code. -/
theorem c1_counterexample :
    (run_patterns highRiskOnlyEx).1 ≠ [] ∧
    compute_main_sar_driver (run_patterns highRiskOnlyEx).1 = none := by
  decide

/-- C1 (amended): for every collection, the computed main driver is null iff
no fired pattern code occurs in the severity list `SAR_DRIVER_PRIORITY`
(which omits HIGH_RISK_JURISDICTION_WIRE, so null is also possible with
non-empty patterns); when non-null, the driver is a fired code lying in the
severity list, and among the fired codes in that list it is the one of
least severity-list index, i.e. the first found by the scan. -/
theorem c1_main_driver (txs : List Tx) :
    (compute_main_sar_driver (run_patterns txs).1 = none ↔
      ∀ c ∈ (run_patterns txs).1, c ∉ SAR_DRIVER_PRIORITY) ∧
    ∀ c, compute_main_sar_driver (run_patterns txs).1 = some c →
      c ∈ (run_patterns txs).1 ∧ c ∈ SAR_DRIVER_PRIORITY ∧
      ∀ b ∈ (run_patterns txs).1, b ∈ SAR_DRIVER_PRIORITY →
        List.indexOf c SAR_DRIVER_PRIORITY ≤ List.indexOf b SAR_DRIVER_PRIORITY := by
  constructor
  · unfold compute_main_sar_driver
    rw [List.find?_eq_none]
    constructor
    · intro h c hc hcp
      exact h c hcp (contains_mem.mpr hc)
    · intro h x hxp hb
      exact h x (contains_mem.mp hb) hxp
  · intro c hc
    obtain ⟨hpc, hcp, hmin⟩ := find?_first hc
    refine ⟨contains_mem.mp hpc, hcp, ?_⟩
    intro b hb hbp
    exact hmin b hbp (contains_mem.mpr hb)

theorem c1_main_driver_witness :
    compute_main_sar_driver (run_patterns cryptoOnlyEx).1 = some "CRYPTO_TO_BANK_FLOW" ∧
    "CRYPTO_TO_BANK_FLOW" ∈ (run_patterns cryptoOnlyEx).1 :=
  ⟨by decide, ((c1_main_driver cryptoOnlyEx).2 "CRYPTO_TO_BANK_FLOW" (by decide)).1⟩

/-- C2: the reported risk score is exactly the clamp of the sum of the fired
detectors' fixed contributions, always lies in [1,10], and is 1 when no
detector fires. -/
theorem c2_risk_score (txs : List Tx) :
    (run_patterns txs).2 = clampScore (rawScore txs) ∧
    1 ≤ (run_patterns txs).2 ∧ (run_patterns txs).2 ≤ 10 ∧
    ((run_patterns txs).1 = [] → (run_patterns txs).2 = 1) := by
  refine ⟨rfl, (clampScore_bounds _).1, (clampScore_bounds _).2, ?_⟩
  intro h
  have hfd : firedDetectors txs = [] := List.map_eq_nil_iff.mp h
  show clampScore (rawScore txs) = 1
  unfold rawScore
  rw [hfd]
  rfl

theorem c2_risk_score_witness : (run_patterns ([] : List Tx)).2 = 1 :=
  (c2_risk_score []).2.2.2 (by decide)

/-- C3: the final recommendation is "No SAR" exactly when no fired code is
in the high-risk driver set and the score is at most 2; otherwise it is
"SAR" exactly when the score is at least 7 and "Review" exactly when the
score is below 7. -/
theorem c3_recommendation (codes : List String) (score : ℤ) :
    (compute_final_recommendation codes score = "No SAR" ↔
      ((∀ c ∈ codes, c ∉ HIGH_RISK_PATTERNS) ∧ score ≤ 2)) ∧
    (¬ ((∀ c ∈ codes, c ∉ HIGH_RISK_PATTERNS) ∧ score ≤ 2) →
      ((compute_final_recommendation codes score = "SAR" ↔ 7 ≤ score) ∧
       (compute_final_recommendation codes score = "Review" ↔ score < 7))) := by
  have hiff := no_sar_iff codes score
  constructor
  · unfold compute_final_recommendation
    by_cases h : should_recommend_no_sar codes score = true
    · rw [if_pos h]
      exact ⟨fun _ => hiff.mp h, fun _ => rfl⟩
    · rw [if_neg h]
      constructor
      · intro he
        exfalso
        by_cases h7 : 7 ≤ score
        · rw [if_pos h7] at he; exact absurd he (by decide)
        · rw [if_neg h7] at he; exact absurd he (by decide)
      · intro hrhs
        exact absurd (hiff.mpr hrhs) h
  · intro hn
    have h : ¬ should_recommend_no_sar codes score = true := fun ht => hn (hiff.mp ht)
    unfold compute_final_recommendation
    rw [if_neg h]
    by_cases h7 : 7 ≤ score
    · rw [if_pos h7]
      exact ⟨⟨fun _ => h7, fun _ => rfl⟩,
             ⟨fun he => absurd he (by decide), fun hlt => by omega⟩⟩
    · rw [if_neg h7]
      exact ⟨⟨fun he => absurd he (by decide), fun hge => absurd hge h7⟩,
             ⟨fun _ => by omega, fun _ => rfl⟩⟩

theorem c3_recommendation_witness :
    compute_final_recommendation ["CRYPTO_TO_BANK_FLOW"] 7 = "SAR" :=
  ((c3_recommendation ["CRYPTO_TO_BANK_FLOW"] 7).2 (by decide)).1.mpr (by norm_num)

/-- C4: whenever CRYPTO_TO_BANK_FLOW is the only fired pattern, the engine
reports risk score 7 and the recommendation is "SAR"; the single
high-severity detector forbids "No SAR" despite no other contribution. -/
theorem c4_crypto_only (txs : List Tx)
    (h : (run_patterns txs).1 = ["CRYPTO_TO_BANK_FLOW"]) :
    (run_patterns txs).2 = 7 ∧
    compute_final_recommendation (run_patterns txs).1 (run_patterns txs).2 = "SAR" := by
  have hfc : firedCodes txs = ["CRYPTO_TO_BANK_FLOW"] := h
  have hnotin : ∀ s : String, s ≠ "CRYPTO_TO_BANK_FLOW" → s ∉ firedCodes txs := by
    intro s hs hmem
    rw [hfc] at hmem
    rcases List.mem_singleton.mp hmem with rfl
    exact hs rfl
  have h1 : structuringFires txs = false := by
    rw [Bool.eq_false_iff]
    intro hb
    exact hnotin _ (by decide) ((structuring_fired_iff txs).mpr hb)
  have h2 : cashWireFires txs = false := by
    rw [Bool.eq_false_iff]
    intro hb
    exact hnotin _ (by decide) ((cashWire_fired_iff txs).mpr hb)
  have h3 : inboundSmurfFires txs = false := by
    rw [Bool.eq_false_iff]
    intro hb
    exact hnotin _ (by decide) ((smurf_fired_iff txs).mpr hb)
  have h4 : p2pFires txs = false := by
    rw [Bool.eq_false_iff]
    intro hb
    exact hnotin _ (by decide) ((p2p_fired_iff txs).mpr hb)
  have h5 : cryptoFires txs = true :=
    (crypto_fired_iff txs).mp (by rw [hfc]; exact List.mem_singleton_self _)
  have h6 : highRiskFires txs = false := by
    rw [Bool.eq_false_iff]
    intro hb
    exact hnotin _ (by decide) ((highRisk_fired_iff txs).mpr hb)
  have h7 : atmFires txs = false := by
    rw [Bool.eq_false_iff]
    intro hb
    exact hnotin _ (by decide) ((atm_fired_iff txs).mpr hb)
  have h8 : rapidOutflowFires txs = false := by
    rw [Bool.eq_false_iff]
    intro hb
    exact hnotin _ (by decide) ((rapidOutflow_fired_iff txs).mpr hb)
  have h9 : layeringFires txs = false := by
    rw [Bool.eq_false_iff]
    intro hb
    exact hnotin _ (by decide) ((layering_fired_iff txs).mpr hb)
  have h10 : funnelingFires txs = false := by
    rw [Bool.eq_false_iff]
    intro hb
    exact hnotin _ (by decide) ((funneling_fired_iff txs).mpr hb)
  have hfd : firedDetectors txs = [("CRYPTO_TO_BANK_FLOW", cryptoFires, 7)] := by
    unfold firedDetectors detectors
    simp [h1, h2, h3, h4, h5, h6, h7, h8, h9, h10]
  have hraw : rawScore txs = 7 := by
    unfold rawScore
    rw [hfd]
    rfl
  have hscore : (run_patterns txs).2 = 7 := by
    show clampScore (rawScore txs) = 7
    rw [hraw]
    rfl
  refine ⟨hscore, ?_⟩
  rw [h, hscore]
  decide

theorem c4_crypto_only_witness :
    (run_patterns cryptoOnlyEx).2 = 7 ∧
    compute_final_recommendation (run_patterns cryptoOnlyEx).1 (run_patterns cryptoOnlyEx).2 = "SAR" :=
  c4_crypto_only cryptoOnlyEx (by decide)

/-- C5 counterexample: a single dated ACH transaction of 5000 with empty
details has unknown direction, yet RAPID_OUTFLOW fires on it (the claim
requires an inbound-direction and an outbound-direction transaction and
says unknown direction disqualifies). -/
theorem c5_counterexample :
    rapidOutflowFires achAloneEx = true ∧
    rapidOutflowSpecFires achAloneEx = false ∧
    specDirection ⟨some 0, some 5000, "ach", "", "unknown"⟩ = "unknown" := by
  decide

/-- C5 (amended): RAPID_OUTFLOW fires iff some transaction of channel
cash/ach/check with amount at least 5000 and some (possibly the same)
transaction of channel wire/ach/p2p with amount at least 5000 carry
parseable dates at most one day apart with the outbound-channel amount at
least 80% of the inbound-channel one; the transactions' directions are
never consulted. -/
theorem c5_rapid_outflow (txs : List Tx) :
    ("RAPID_OUTFLOW" ∈ (run_patterns txs).1) ↔
      ∃ ta ∈ txs, ∃ tb ∈ txs, ∃ da db : ℤ,
        ta.date = some da ∧ tb.date = some db ∧
        getType ta ∈ (["cash", "ach", "check"] : List String) ∧
        (5000 : ℚ) ≤ getAmount ta ∧
        getType tb ∈ (["wire", "ach", "p2p"] : List String) ∧
        (5000 : ℚ) ≤ getAmount tb ∧
        (db - da).natAbs ≤ 1 ∧ getAmount ta * (4 / 5) ≤ getAmount tb := by
  show ("RAPID_OUTFLOW" ∈ firedCodes txs) ↔ _
  rw [rapidOutflow_fired_iff]
  unfold rapidOutflowFires
  rw [List.any_eq_true]
  constructor
  · rintro ⟨⟨ta, da⟩, hmem, hinner⟩
    rw [List.any_eq_true] at hinner
    obtain ⟨⟨tb, db⟩, hmemb, hpair⟩ := hinner
    obtain ⟨hta, hda⟩ := mem_datedTxs.mp hmem
    obtain ⟨htb, hdb⟩ := mem_datedTxs.mp hmemb
    unfold rapidOutflowPair at hpair
    simp only [Bool.and_eq_true, decide_eq_true_eq] at hpair
    obtain ⟨⟨⟨⟨⟨hc1, hc2⟩, hc3⟩, hc4⟩, hc5⟩, hc6⟩ := hpair
    refine ⟨ta, hta, tb, htb, da, db, hda, hdb,
      contains_mem.mp hc1, hc2, contains_mem.mp hc3, hc4, hc5, ?_⟩
    rw [← ratFourFifths_eq, ← ratMul_eq]
    exact hc6
  · rintro ⟨ta, hta, tb, htb, da, db, hda, hdb, h1, h2, h3, h4, h5, h6⟩
    refine ⟨(ta, da), mem_datedTxs.mpr ⟨hta, hda⟩, ?_⟩
    rw [List.any_eq_true]
    refine ⟨(tb, db), mem_datedTxs.mpr ⟨htb, hdb⟩, ?_⟩
    unfold rapidOutflowPair
    simp only [Bool.and_eq_true, decide_eq_true_eq]
    refine ⟨⟨⟨⟨⟨contains_mem.mpr h1, h2⟩, contains_mem.mpr h3⟩, h4⟩, h5⟩, ?_⟩
    rw [ratMul_eq, ratFourFifths_eq]
    exact h6

/-- C6 counterexample: four same-day p2p credits of 400 from four distinct
description strings, explicitly marked inbound, do not fire
INBOUND_SMURFING (their details contain none of the substrings the code
tests), though the claim's reading (direction inbound) says they must. -/
theorem c6_counterexample :
    inboundSmurfFires fourCreditsEx = false ∧
    inboundSmurfSpecFires fourCreditsEx = true := by
  decide

/-- C6 (amended): INBOUND_SMURFING fires iff some calendar day has at least
4 transactions of channel p2p/ach/wire whose lower-cased details contain
"incoming", "credit" or "from" (the code's inbound test — the direction
field is not consulted), each of amount under 1000, with at least 3
distinct details strings among them and amounts summing to at least 1500. -/
theorem c6_inbound_smurfing (txs : List Tx) :
    ("INBOUND_SMURFING" ∈ (run_patterns txs).1) ↔
      ∃ d : ℤ, (∃ t ∈ txs, t.date = some d) ∧
        4 ≤ ((txsOnDay txs d).filter smurfEligible).length ∧
        3 ≤ ((((txsOnDay txs d).filter smurfEligible).map getDetails).dedup).length ∧
        (1500 : ℚ) ≤ (((txsOnDay txs d).filter smurfEligible).map getAmount).sum := by
  show ("INBOUND_SMURFING" ∈ firedCodes txs) ↔ _
  rw [smurf_fired_iff]
  unfold inboundSmurfFires
  rw [List.any_eq_true]
  constructor
  · rintro ⟨d, hd, hday⟩
    unfold smurfDay at hday
    simp only [Bool.and_eq_true, decide_eq_true_eq] at hday
    obtain ⟨⟨hl, hs⟩, ht⟩ := hday
    rw [ratSum_eq] at ht
    exact ⟨d, mem_dayKeys.mp hd, hl, hs, ht⟩
  · rintro ⟨d, hex, hl, hs, ht⟩
    refine ⟨d, mem_dayKeys.mpr hex, ?_⟩
    unfold smurfDay
    simp only [Bool.and_eq_true, decide_eq_true_eq]
    exact ⟨⟨hl, hs⟩, by rw [ratSum_eq]; exact ht⟩

/-- C7: STRUCTURING_NEAR_THRESHOLD_CASH fires iff the collection has a cash
transaction of amount strictly between 9900 and 10000; at the boundary,
9999.99 triggers it while exactly 10000.00 or 9900.00 do not. -/
theorem c7_structuring (txs : List Tx) :
    (("STRUCTURING_NEAR_THRESHOLD_CASH" ∈ (run_patterns txs).1) ↔
      ∃ t ∈ txs, getType t = "cash" ∧ (9900 : ℚ) < getAmount t ∧ getAmount t < 10000) ∧
    structuringFires [⟨none, some (999999 / 100), "cash", "", "unknown"⟩] = true ∧
    structuringFires [⟨none, some 10000, "cash", "", "unknown"⟩] = false ∧
    structuringFires [⟨none, some 9900, "cash", "", "unknown"⟩] = false := by
  have hiff : ∀ ts : List Tx, structuringFires ts = true ↔
      ∃ t ∈ ts, getType t = "cash" ∧ (9900 : ℚ) < getAmount t ∧ getAmount t < 10000 := by
    intro ts
    unfold structuringFires
    rw [List.any_eq_true]
    constructor
    · rintro ⟨t, ht, hhit⟩
      unfold structuringHit at hhit
      simp only [Bool.and_eq_true, decide_eq_true_eq, beq_iff_eq] at hhit
      exact ⟨t, ht, hhit.1.1, hhit.1.2, hhit.2⟩
    · rintro ⟨t, ht, h1, h2, h3⟩
      refine ⟨t, ht, ?_⟩
      unfold structuringHit
      simp only [Bool.and_eq_true, decide_eq_true_eq, beq_iff_eq]
      exact ⟨⟨h1, h2⟩, h3⟩
  refine ⟨?_, ?_, ?_, ?_⟩
  · show ("STRUCTURING_NEAR_THRESHOLD_CASH" ∈ firedCodes txs) ↔ _
    rw [structuring_fired_iff]
    exact hiff txs
  · rw [hiff]
    refine ⟨_, List.mem_singleton_self _, rfl, ?_, ?_⟩ <;> norm_num [getAmount]
  · rw [Bool.eq_false_iff]
    intro hfire
    rw [hiff] at hfire
    obtain ⟨t, ht, -, -, h3⟩ := hfire
    rcases List.mem_singleton.mp ht with rfl
    norm_num [getAmount] at h3
  · rw [Bool.eq_false_iff]
    intro hfire
    rw [hiff] at hfire
    obtain ⟨t, ht, -, h2, -⟩ := hfire
    rcases List.mem_singleton.mp ht with rfl
    norm_num [getAmount] at h2

/-- C8: three ATM withdrawals of 8500, 9000 and 9500 on three different
days yield exactly the ATM_STRUCTURING_WITHDRAWALS pattern, risk score 3,
risk band "Medium" and recommendation "Review". -/
theorem c8_atm_scenario :
    run_patterns threeAtmEx = (["ATM_STRUCTURING_WITHDRAWALS"], 3) ∧
    compute_risk_band 3 = "Medium" ∧
    compute_final_recommendation ["ATM_STRUCTURING_WITHDRAWALS"] 3 = "Review" := by
  decide

/-- C9: malformed records never break evaluation — an unparseable amount
resolves to 0 and so fails every positive threshold; a transaction without
a parseable date appears in no day group and in no dated list (the inputs
of the windowed detectors), while the full-list detectors (structuring,
high-risk jurisdiction) test conditions independent of the date, so a
dateless transaction still fires them. -/
theorem c9_malformed_records :
    (∀ t : Tx, t.amount = none → ∀ th : ℚ, 0 < th → getAmount t < th) ∧
    (∀ (txs : List Tx) (d : ℤ) (t : Tx), t ∈ txsOnDay txs d → t.date = some d) ∧
    (∀ (txs : List Tx) (t : Tx) (d : ℤ), (t, d) ∈ datedTxs txs → t.date = some d) ∧
    (∀ txs : List Tx, structuringFires txs = true ↔ ∃ t ∈ txs, structuringHit t = true) ∧
    (∀ txs : List Tx, highRiskFires txs = true ↔ ∃ t ∈ txs, highRiskHit t = true) ∧
    structuringFires [⟨none, some 9950, "cash", "", "unknown"⟩] = true ∧
    highRiskFires [⟨none, some 100, "wire", "offshore", "unknown"⟩] = true := by
  refine ⟨?_, ?_, ?_, ?_, ?_, by decide, by decide⟩
  · intro t ha th hth
    unfold getAmount
    rw [ha]
    simpa using hth
  · intro txs d t hmem
    exact (mem_txsOnDay.mp hmem).2
  · intro txs t d hmem
    exact (mem_datedTxs.mp hmem).2
  · intro txs
    exact List.any_eq_true
  · intro txs
    exact List.any_eq_true

theorem c9_malformed_records_witness :
    getAmount ⟨none, none, "cash", "", "unknown"⟩ < 1 ∧
    (⟨some 0, some 5, "cash", "", "unknown"⟩ : Tx).date = some 0 ∧
    structuringFires [⟨none, some 9950, "cash", "", "unknown"⟩] = true :=
  ⟨c9_malformed_records.1 ⟨none, none, "cash", "", "unknown"⟩ rfl 1 (by norm_num),
   c9_malformed_records.2.1 [⟨some 0, some 5, "cash", "", "unknown"⟩] 0
     ⟨some 0, some 5, "cash", "", "unknown"⟩ (by decide),
   c9_malformed_records.2.2.2.2.2.1⟩

/-- C10: any collection containing an ACH transaction with a parseable date
and amount at least 5000 fires RAPID_OUTFLOW, even when that transaction is
alone: ach lies in both channel sets and the two loops run over the same
dated list with no self-pairing exclusion, so the transaction pairs with
itself (same day, outbound amount equal to 100% of inbound amount). -/
theorem c10_ach_self_pairing (txs : List Tx) (t : Tx) (d : ℤ)
    (hmem : t ∈ txs) (hty : getType t = "ach") (hdate : t.date = some d)
    (hamt : (5000 : ℚ) ≤ getAmount t) :
    "RAPID_OUTFLOW" ∈ (run_patterns txs).1 := by
  show "RAPID_OUTFLOW" ∈ firedCodes txs
  rw [rapidOutflow_fired_iff]
  unfold rapidOutflowFires
  rw [List.any_eq_true]
  refine ⟨(t, d), mem_datedTxs.mpr ⟨hmem, hdate⟩, ?_⟩
  rw [List.any_eq_true]
  refine ⟨(t, d), mem_datedTxs.mpr ⟨hmem, hdate⟩, ?_⟩
  unfold rapidOutflowPair
  simp only [Bool.and_eq_true, decide_eq_true_eq]
  have hin : List.contains ["cash", "ach", "check"] (getType t) = true := by
    rw [hty]; decide
  have hout : List.contains ["wire", "ach", "p2p"] (getType t) = true := by
    rw [hty]; decide
  refine ⟨⟨⟨⟨⟨hin, hamt⟩, hout⟩, hamt⟩, by simp⟩, ?_⟩
  rw [ratMul_eq, ratFourFifths_eq]
  linarith

theorem c10_ach_self_pairing_witness :
    "RAPID_OUTFLOW" ∈ (run_patterns achSelfPairEx).1 :=
  c10_ach_self_pairing achSelfPairEx ⟨some 0, some 6000, "ach", "", "unknown"⟩ 0
    (by decide) (by decide) (by decide) (by decide)
